import Mathlib

/-!
Verification of the ipfs-instance wrapper (src/index.js).

The repository is a thin facade over an external ipfs node. We embed the
facade shallowly: the wrapped node is an abstract record of the operations
the facade delegates to, the module closure variable ipfsInstance is an
Option of that record, and each exposed operation becomes a pure function
returning an Except value (a thrown Error becomes Except.error) or, for the
callback-based putObjectSync, a data value recording exactly what was
forwarded to dag.put and what the callback was invoked with.

Section 8 of the spec additionally describes a DAG-store core (put/get with
codec and hash registries) that the repository does not contain; that core
is modelled from the spec text for claim C7.
-/

namespace IpfsInstance

/-- Options record for dag.put: the format and hashAlg fields used at
src/index.js line 13. -/
structure DagConfig where
  format : String
  hashAlg : String
deriving DecidableEq, Repr

/-- DEFAULT_DAG_CONFIG from src/index.js line 13:
format dag-cbor, hashAlg sha3-512. -/
def DEFAULT_DAG_CONFIG : DagConfig := ⟨"dag-cbor", "sha3-512"⟩

/-- Errors thrown by the wrapper itself, plus an injection of errors
produced by the wrapped node. notConnected is the Error of
validateIPFSConnected (line 9); noObject is the Error thrown by
putObjectSync on an empty argument list (line 69). -/
inductive WrapError (E : Type) where
  | notConnected : WrapError E
  | noObject : WrapError E
  | nodeError : E → WrapError E
deriving DecidableEq, Repr

/-- A JavaScript argument value as it can appear in a call to the wrapper:
undefined, an object (DAG node), an options record, or a function value
(identified by a tag). -/
inductive JSArg (V : Type) where
  | undef : JSArg V
  | obj : V → JSArg V
  | cfg : DagConfig → JSArg V
  | fn : Nat → JSArg V
deriving DecidableEq, Repr

/-- Abstract model of the wrapped ipfs node: the behaviour of the methods
the facade delegates to. V is the type of DAG-node objects, C the type of
CIDs, E the type of node-side errors. dagPut models the promise form of
dag.put (used by putObject); dagPutCb models the callback form (used by
putObjectSync), giving the pair of arguments dag.put passes to its
callback. startResult and stopResult are the asynchronous outcomes of the
wrapped start() and stop() calls. -/
structure IPFSNode (V C E : Type) where
  online : Bool
  startResult : Except E Unit
  stopResult : Except E Unit
  dagPut : JSArg V → DagConfig → Except E C
  dagPutCb : JSArg V → JSArg V → Option E × Option C

variable {V C E : Type}

/-- validateIPFSConnected (src/index.js lines 7-11): throws the
not-connected Error when the handle is unset, otherwise does nothing. -/
def validateIPFSConnected (ipfs : Option (IPFSNode V C E)) :
    Except (WrapError E) Unit :=
  match ipfs with
  | none => Except.error WrapError.notConnected
  | some _ => Except.ok ()

/-- start (src/index.js lines 23-26): validate, then call the wrapped start
for its side effect; its outcome is discarded and undefined is returned. -/
def start (ipfsInstance : Option (IPFSNode V C E)) :
    Except (WrapError E) Unit :=
  (validateIPFSConnected ipfsInstance).bind fun _ =>
    match ipfsInstance with
    | some node =>
        let _ := node.startResult
        Except.ok ()
    | none => Except.error WrapError.notConnected

/-- stop (src/index.js lines 32-35): validate, then call the wrapped stop
for its side effect; its outcome is discarded and undefined is returned. -/
def stop (ipfsInstance : Option (IPFSNode V C E)) :
    Except (WrapError E) Unit :=
  (validateIPFSConnected ipfsInstance).bind fun _ =>
    match ipfsInstance with
    | some node =>
        let _ := node.stopResult
        Except.ok ()
    | none => Except.error WrapError.notConnected

/-- isOnline (src/index.js lines 41-44): validate, then return the wrapped
isOnline result unchanged. -/
def isOnline (ipfsInstance : Option (IPFSNode V C E)) :
    Except (WrapError E) Bool :=
  (validateIPFSConnected ipfsInstance).bind fun _ =>
    match ipfsInstance with
    | some node => Except.ok node.online
    | none => Except.error WrapError.notConnected

/-- putObject (src/index.js lines 54-57): options defaults to
DEFAULT_DAG_CONFIG when omitted; validate, then return the result of the
wrapped dag.put unchanged (node errors appear under the nodeError
injection of the error union). -/
def putObject (ipfsInstance : Option (IPFSNode V C E)) (dagNode : JSArg V)
    (options : Option DagConfig) : Except (WrapError E) C :=
  let opts := options.getD DEFAULT_DAG_CONFIG
  (validateIPFSConnected ipfsInstance).bind fun _ =>
    match ipfsInstance with
    | some node => (node.dagPut dagNode opts).mapError WrapError.nodeError
    | none => Except.error WrapError.notConnected

/-- Observable outcome of a putObjectSync call: either a synchronously
thrown error, or a record that dag.put was called with the forwarded
(obj, config) pair and that the wrapper lambda invoked the value in the
callback slot with the (err, cid) pair dag.put produced. -/
inductive SyncOutcome (V C E : Type) where
  | thrown : WrapError E → SyncOutcome V C E
  | delivered : JSArg V → JSArg V → JSArg V → Option E → Option C →
      SyncOutcome V C E
deriving DecidableEq, Repr

/-- putObjectSync (src/index.js lines 66-84). The local variables obj,
config (initialised to DEFAULT_DAG_CONFIG) and callback are assigned from
the arguments object only when arguments.length is exactly 3 or exactly 2;
an empty argument list throws before the readiness check; then
validateIPFSConnected runs, and dag.put is called with (obj, config) and a
lambda that passes the resulting (err, cid) pair to callback. -/
def putObjectSync (ipfsInstance : Option (IPFSNode V C E))
    (args : List (JSArg V)) : SyncOutcome V C E :=
  if args.length = 0 then
    SyncOutcome.thrown WrapError.noObject
  else
    let obj : JSArg V :=
      if args.length = 3 ∨ args.length = 2 then args.getD 0 JSArg.undef
      else JSArg.undef
    let config : JSArg V :=
      if args.length = 3 then args.getD 1 JSArg.undef
      else JSArg.cfg DEFAULT_DAG_CONFIG
    let callback : JSArg V :=
      if args.length = 3 then args.getD 2 JSArg.undef
      else if args.length = 2 then args.getD 1 JSArg.undef
      else JSArg.undef
    match ipfsInstance with
    | none => SyncOutcome.thrown WrapError.notConnected
    | some node =>
        let r := node.dagPutCb obj config
        SyncOutcome.delivered obj config callback r.1 r.2

/-- Names of the wrapped node events the facade subscribes to. -/
inductive EventName where
  | error : EventName
  | init : EventName
  | start : EventName
  | stop : EventName
deriving DecidableEq, Repr

/-- How the user callback is invoked when a subscribed event fires:
with the event payload as its single argument, or with no arguments. -/
inductive Invocation (E : Type) where
  | withArg : Option E → Invocation E
  | noArgs : Invocation E
deriving DecidableEq, Repr

/-- onError (src/index.js lines 91-97): validate, then subscribe to the
wrapped error event a handler that passes the error payload to the user
callback. The result records the event name and, as a function of the
firing payload, the invocation made on the user callback. -/
def onError (ipfsInstance : Option (IPFSNode V C E)) :
    Except (WrapError E) (EventName × (Option E → Invocation E)) :=
  (validateIPFSConnected ipfsInstance).bind fun _ =>
    Except.ok (EventName.error, fun err => Invocation.withArg err)

/-- onInit (src/index.js lines 104-110): validate, then subscribe to the
wrapped init event a handler that invokes the user callback with no
arguments. -/
def onInit (ipfsInstance : Option (IPFSNode V C E)) :
    Except (WrapError E) (EventName × (Option E → Invocation E)) :=
  (validateIPFSConnected ipfsInstance).bind fun _ =>
    Except.ok (EventName.init, fun _ => Invocation.noArgs)

/-- onStart (src/index.js lines 117-123): validate, then subscribe to the
wrapped start event a handler that invokes the user callback with no
arguments. -/
def onStart (ipfsInstance : Option (IPFSNode V C E)) :
    Except (WrapError E) (EventName × (Option E → Invocation E)) :=
  (validateIPFSConnected ipfsInstance).bind fun _ =>
    Except.ok (EventName.start, fun _ => Invocation.noArgs)

/-- onStop (src/index.js lines 130-136): validate, then subscribe to the
wrapped stop event a handler that invokes the user callback with no
arguments. -/
def onStop (ipfsInstance : Option (IPFSNode V C E)) :
    Except (WrapError E) (EventName × (Option E → Invocation E)) :=
  (validateIPFSConnected ipfsInstance).bind fun _ =>
    Except.ok (EventName.stop, fun _ => Invocation.noArgs)

/-- The ready listener of the module IIFE (src/index.js lines 139-144):
when the wrapped node emits ready, the closure handle ipfsInstance is
assigned the node before the exported promise resolves with the instance.
The function gives the value of the handle at resolution time. -/
def readyHandler (ipfsNode : IPFSNode V C E) : Option (IPFSNode V C E) :=
  some ipfsNode

/-- Modelled from the spec: error taxonomy of the DAG-store core (spec
section 7). The repository contains no DAG store (it delegates wholly to
the external ipfs library), so the core is modelled from spec sections
2-4 and 8. -/
inductive CoreError where
  | unknownFormat : CoreError
  | unknownHashAlg : CoreError
  | notFound : CoreError
  | decodeError : CoreError
deriving DecidableEq, Repr

/-- Modelled from the spec: a Format Descriptor (spec section 3), an
encode/decode pair for one format id. Bytes are modelled as lists of
naturals. -/
structure Codec (Node : Type) where
  encode : Node → List Nat
  decode : List Nat → Option Node

/-- Modelled from the spec: a Hash Descriptor (spec section 3), a digest
function for one hash-algorithm id. -/
structure HashAlg where
  digest : List Nat → List Nat

/-- Modelled from the spec: a Content Identifier (spec section 3), the
value triple of format id, hash-algorithm id and digest. -/
structure CID where
  formatId : String
  hashAlgId : String
  digest : List Nat
deriving DecidableEq, Repr

/-- Lookup of a stored block by its digest key in the block list of the
modelled store, newest entry first. -/
def lookupBlock : List (List Nat × List Nat) → List Nat → Option (List Nat)
  | [], _ => none
  | (k, v) :: rest, d => if k = d then some v else lookupBlock rest d

/-- Modelled from the spec: the DAG Store state (spec section 4.5),
composing the codec registry, the hash registry and the block store. The
block store is an association list from digest keys to byte blocks. -/
structure DagStore (Node : Type) where
  codecs : String → Option (Codec Node)
  hashes : String → Option HashAlg
  blocks : List (List Nat × List Nat)

variable {Node : Type}

/-- Modelled from the spec: DagStore put (spec section 4.5): resolve the
codec, encode the node, resolve the hash, compute the CID over the encoded
bytes, store the block keyed by the digest, and return the new store with
the CID. -/
def DagStore.put (s : DagStore Node) (n : Node) (opts : DagConfig) :
    Except CoreError (DagStore Node × CID) :=
  match s.codecs opts.format with
  | none => Except.error CoreError.unknownFormat
  | some codec =>
      match s.hashes opts.hashAlg with
      | none => Except.error CoreError.unknownHashAlg
      | some h =>
          let bytes := codec.encode n
          let d := h.digest bytes
          Except.ok
            (⟨s.codecs, s.hashes, (d, bytes) :: s.blocks⟩,
             ⟨opts.format, opts.hashAlg, d⟩)

/-- Modelled from the spec: DagStore get (spec section 4.5): resolve the
codec named by the CID, fetch the block by the digest, decode the bytes,
and return the node. -/
def DagStore.get (s : DagStore Node) (cid : CID) : Except CoreError Node :=
  match s.codecs cid.formatId with
  | none => Except.error CoreError.unknownFormat
  | some codec =>
      match lookupBlock s.blocks cid.digest with
      | none => Except.error CoreError.notFound
      | some bytes =>
          match codec.decode bytes with
          | none => Except.error CoreError.decodeError
          | some n => Except.ok n

/-- A concrete wrapped node whose delegated operations all fail: start and
stop reject with the error boom, and dag.put reports the same error to its
callback and its promise. Used to exhibit behaviour on failing
delegates. -/
def failingNode : IPFSNode Nat Nat String :=
  ⟨true, Except.error "boom", Except.error "boom",
   fun _ _ => Except.error "boom", fun _ _ => (some "boom", none)⟩

/-- A concrete codec on natural-number nodes: a node encodes to the
singleton byte list holding it, and decoding inverts that exactly. -/
def natCodec : Codec Nat :=
  ⟨fun n => [n],
   fun l => match l with
     | [x] => some x
     | _ => none⟩

/-- A concrete hash descriptor whose digest is the identity on byte
lists. -/
def idHash : HashAlg := ⟨fun l => l⟩

/-- A concrete empty DAG store with natCodec registered under tree-v1 and
idHash registered under sha-256. -/
def demoStore : DagStore Nat :=
  ⟨fun f => if f = "tree-v1" then some natCodec else none,
   fun h => if h = "sha-256" then some idHash else none,
   []⟩

/-!
Theorems for the claims. Throughout, an arbitrary node of type
IPFSNode V C E stands for the wrapped ipfs instance, some node for a set
handle and none for an unset one.
-/

/-- Helper: with a set handle, putObjectSync never throws the
not-connected error: it either throws the provide-object error (empty
argument list) or completes through the callback. -/
theorem putObjectSync_some_outcome (node : IPFSNode V C E)
    (args : List (JSArg V)) :
    putObjectSync (some node) args = SyncOutcome.thrown WrapError.noObject ∨
    ∃ o c cb r₁ r₂,
      putObjectSync (some node) args = SyncOutcome.delivered o c cb r₁ r₂ := by
  cases args with
  | nil => exact Or.inl rfl
  | cons a t =>
      refine Or.inr ?_
      simp only [putObjectSync]
      rw [if_neg (by simp)]
      exact ⟨_, _, _, _, _, rfl⟩

/-- Helper: with an unset handle, putObjectSync on a nonempty argument
list throws the not-connected error. -/
theorem putObjectSync_none_notConnected (args : List (JSArg V))
    (h : args ≠ []) :
    putObjectSync (none : Option (IPFSNode V C E)) args =
      SyncOutcome.thrown WrapError.notConnected := by
  cases args with
  | nil => exact absurd rfl h
  | cons a t =>
      simp only [putObjectSync]
      rw [if_neg (by simp)]

/-- C2: when the instance handle is set, putObject returns exactly the
value produced by the wrapped dag.put on the same arguments (node errors
appearing only under the error-union injection), and isOnline returns
exactly the wrapped isOnline result; no transformation of arguments or
results is applied. -/
theorem c2_putObject_isOnline_passthrough (node : IPFSNode V C E)
    (dagNode : JSArg V) (opts : DagConfig) :
    putObject (some node) dagNode (some opts) =
      (node.dagPut dagNode opts).mapError WrapError.nodeError ∧
    isOnline (some node) = Except.ok node.online := by
  constructor <;> rfl

/-- C3: when the caller omits options, putObject uses DEFAULT_DAG_CONFIG,
putObjectSync with two arguments forwards DEFAULT_DAG_CONFIG as the
config, and the constant is exactly format dag-cbor with hashAlg
sha3-512. -/
theorem c3_default_config (node : IPFSNode V C E) (dagNode a₀ a₁ : JSArg V) :
    DEFAULT_DAG_CONFIG = ⟨"dag-cbor", "sha3-512"⟩ ∧
    putObject (some node) dagNode none =
      (node.dagPut dagNode DEFAULT_DAG_CONFIG).mapError WrapError.nodeError ∧
    putObjectSync (some node) [a₀, a₁] =
      SyncOutcome.delivered a₀ (JSArg.cfg DEFAULT_DAG_CONFIG) a₁
        (node.dagPutCb a₀ (JSArg.cfg DEFAULT_DAG_CONFIG)).1
        (node.dagPutCb a₀ (JSArg.cfg DEFAULT_DAG_CONFIG)).2 := by
  refine ⟨rfl, rfl, ?_⟩
  rfl

/-- C4: putObjectSync dispatches on argument count: with three arguments
it forwards (node, config, callback) to the wrapped dag.put, with two it
forwards (node, DEFAULT_DAG_CONFIG, callback); in both cases the only
completion is the invocation of the supplied callback with the pair
dag.put produced. -/
theorem c4_arity_dispatch (node : IPFSNode V C E) (a₀ a₁ a₂ : JSArg V) :
    putObjectSync (some node) [a₀, a₁, a₂] =
      SyncOutcome.delivered a₀ a₁ a₂
        (node.dagPutCb a₀ a₁).1 (node.dagPutCb a₀ a₁).2 ∧
    putObjectSync (some node) [a₀, a₁] =
      SyncOutcome.delivered a₀ (JSArg.cfg DEFAULT_DAG_CONFIG) a₁
        (node.dagPutCb a₀ (JSArg.cfg DEFAULT_DAG_CONFIG)).1
        (node.dagPutCb a₀ (JSArg.cfg DEFAULT_DAG_CONFIG)).2 := by
  constructor <;> rfl

/-- C5: onError, onInit, onStart and onStop subscribe to the matching
event of the wrapped node, and the installed handler is a pure
pass-through: the error payload is handed to the callback for onError,
and the callback is invoked with no arguments for the other three. -/
theorem c5_event_passthrough (node : IPFSNode V C E) :
    onError (some node) =
      Except.ok (EventName.error, fun err => Invocation.withArg err) ∧
    onInit (some node) =
      Except.ok (EventName.init, fun _ => Invocation.noArgs) ∧
    onStart (some node) =
      Except.ok (EventName.start, fun _ => Invocation.noArgs) ∧
    onStop (some node) =
      Except.ok (EventName.stop, fun _ => Invocation.noArgs) := by
  exact ⟨rfl, rfl, rfl, rfl⟩

/-- C9: putObjectSync with an empty argument list throws the
provide-object error before the readiness check runs, so it fires for any
state of the handle, set or unset; with exactly one argument no arity
error is raised and the call proceeds with both the forwarded object and
the callback undefined. -/
theorem c9_zero_and_one_arg (inst : Option (IPFSNode V C E))
    (node : IPFSNode V C E) (a : JSArg V) :
    putObjectSync inst [] = SyncOutcome.thrown WrapError.noObject ∧
    putObjectSync (some node) [a] =
      SyncOutcome.delivered JSArg.undef (JSArg.cfg DEFAULT_DAG_CONFIG)
        JSArg.undef
        (node.dagPutCb JSArg.undef (JSArg.cfg DEFAULT_DAG_CONFIG)).1
        (node.dagPutCb JSArg.undef (JSArg.cfg DEFAULT_DAG_CONFIG)).2 ∧
    putObjectSync (none : Option (IPFSNode V C E)) [a] =
      SyncOutcome.thrown WrapError.notConnected := by
  exact ⟨rfl, rfl, rfl⟩

/-- C1 counterexample: the claim says every operation on an unset handle
fails with the not-connected error for every argument list, but
putObjectSync called with an empty argument list on an unset handle throws
the provide-object error instead, which is a different error. -/
theorem c1_counterexample :
    putObjectSync (none : Option (IPFSNode Nat Nat String)) [] =
      SyncOutcome.thrown WrapError.noObject ∧
    (SyncOutcome.thrown WrapError.noObject : SyncOutcome Nat Nat String) ≠
      SyncOutcome.thrown WrapError.notConnected := by
  exact ⟨rfl, by decide⟩

/-- C1 amended: on an unset handle every operation fails before anything
is delegated to the wrapped node, with the not-connected error, except
putObjectSync on an empty argument list, which throws the provide-object
arity error instead. -/
theorem c1_not_ready_guard (v : JSArg V) (o : Option DagConfig)
    (args : List (JSArg V)) (h : args ≠ []) :
    start (none : Option (IPFSNode V C E)) =
      Except.error WrapError.notConnected ∧
    stop (none : Option (IPFSNode V C E)) =
      Except.error WrapError.notConnected ∧
    isOnline (none : Option (IPFSNode V C E)) =
      Except.error WrapError.notConnected ∧
    putObject (none : Option (IPFSNode V C E)) v o =
      Except.error WrapError.notConnected ∧
    onError (none : Option (IPFSNode V C E)) =
      Except.error WrapError.notConnected ∧
    onInit (none : Option (IPFSNode V C E)) =
      Except.error WrapError.notConnected ∧
    onStart (none : Option (IPFSNode V C E)) =
      Except.error WrapError.notConnected ∧
    onStop (none : Option (IPFSNode V C E)) =
      Except.error WrapError.notConnected ∧
    putObjectSync (none : Option (IPFSNode V C E)) args =
      SyncOutcome.thrown WrapError.notConnected ∧
    putObjectSync (none : Option (IPFSNode V C E)) [] =
      SyncOutcome.thrown WrapError.noObject := by
  exact ⟨rfl, rfl, rfl, rfl, rfl, rfl, rfl, rfl,
    putObjectSync_none_notConnected args h, rfl⟩

/-- Witness for the amended C1 at concrete types and a one-element
argument list. -/
theorem c1_witness :
    start (none : Option (IPFSNode Nat Nat String)) =
      Except.error WrapError.notConnected ∧
    stop (none : Option (IPFSNode Nat Nat String)) =
      Except.error WrapError.notConnected ∧
    isOnline (none : Option (IPFSNode Nat Nat String)) =
      Except.error WrapError.notConnected ∧
    putObject (none : Option (IPFSNode Nat Nat String)) JSArg.undef none =
      Except.error WrapError.notConnected ∧
    onError (none : Option (IPFSNode Nat Nat String)) =
      Except.error WrapError.notConnected ∧
    onInit (none : Option (IPFSNode Nat Nat String)) =
      Except.error WrapError.notConnected ∧
    onStart (none : Option (IPFSNode Nat Nat String)) =
      Except.error WrapError.notConnected ∧
    onStop (none : Option (IPFSNode Nat Nat String)) =
      Except.error WrapError.notConnected ∧
    putObjectSync (none : Option (IPFSNode Nat Nat String)) [JSArg.undef] =
      SyncOutcome.thrown WrapError.notConnected ∧
    putObjectSync (none : Option (IPFSNode Nat Nat String)) [] =
      SyncOutcome.thrown WrapError.noObject :=
  c1_not_ready_guard JSArg.undef none [JSArg.undef] (by decide)

/-- C6 counterexample: the claim says every failure of a delegated call,
including failures of the wrapped start and stop, is returned or signaled
to the immediate caller; but on a node whose start and stop reject with
the error boom, the wrapper start and stop return plain success, so the
failure is not signaled. -/
theorem c6_counterexample :
    failingNode.startResult = Except.error "boom" ∧
    failingNode.stopResult = Except.error "boom" ∧
    start (some failingNode) = Except.ok () ∧
    stop (some failingNode) = Except.ok () := by
  exact ⟨rfl, rfl, rfl, rfl⟩

/-- C6 amended: failures of the wrapped dag.put are always signaled to
the immediate caller: putObject returns the error and putObjectSync
passes the (err, cid) pair to the callback unchanged; start and stop,
however, discard the outcome of the delegated call, so their failures are
not signaled. -/
theorem c6_error_propagation (node : IPFSNode V C E) (v a₀ a₁ a₂ : JSArg V)
    (opts : DagConfig) (e : E)
    (h : node.dagPut v opts = Except.error e) :
    putObject (some node) v (some opts) =
      Except.error (WrapError.nodeError e) ∧
    putObjectSync (some node) [a₀, a₁, a₂] =
      SyncOutcome.delivered a₀ a₁ a₂
        (node.dagPutCb a₀ a₁).1 (node.dagPutCb a₀ a₁).2 ∧
    start (some node) = Except.ok () ∧
    stop (some node) = Except.ok () := by
  refine ⟨?_, rfl, rfl, rfl⟩
  simp [putObject, validateIPFSConnected, h, Except.mapError, Except.bind]

/-- Witness for the amended C6 at the concrete failing node. -/
theorem c6_witness :
    putObject (some failingNode) (JSArg.obj 0) (some DEFAULT_DAG_CONFIG) =
      Except.error (WrapError.nodeError "boom") ∧
    putObjectSync (some failingNode)
        [JSArg.obj 0, JSArg.cfg DEFAULT_DAG_CONFIG, JSArg.fn 0] =
      SyncOutcome.delivered (JSArg.obj 0) (JSArg.cfg DEFAULT_DAG_CONFIG)
        (JSArg.fn 0) (some "boom") none ∧
    start (some failingNode) = Except.ok () ∧
    stop (some failingNode) = Except.ok () :=
  c6_error_propagation failingNode (JSArg.obj 0) (JSArg.obj 0)
    (JSArg.cfg DEFAULT_DAG_CONFIG) (JSArg.fn 0) DEFAULT_DAG_CONFIG "boom" rfl

/-- C7: round-trip invariant of the spec-modelled DAG store: for any
registered format F and hash algorithm H, and any node N whose codec
round-trips it, getting the CID returned by put gives back a node equal
to N. -/
theorem c7_roundtrip (s : DagStore Node) (n : Node) (F H : String)
    (codec : Codec Node) (ha : HashAlg)
    (hc : s.codecs F = some codec) (hh : s.hashes H = some ha)
    (hrt : codec.decode (codec.encode n) = some n) :
    ∃ t cid, s.put n ⟨F, H⟩ = Except.ok (t, cid) ∧
      t.get cid = Except.ok n := by
  refine ⟨⟨s.codecs, s.hashes,
      (ha.digest (codec.encode n), codec.encode n) :: s.blocks⟩,
    ⟨F, H, ha.digest (codec.encode n)⟩, ?_, ?_⟩
  · simp [DagStore.put, hc, hh]
  · simp [DagStore.get, hc, lookupBlock, hrt]

/-- Witness for C7 on the concrete demo store, its registered codec and
hash, and the node 7. -/
theorem c7_witness :
    demoStore.codecs "tree-v1" = some natCodec ∧
    demoStore.hashes "sha-256" = some idHash ∧
    natCodec.decode (natCodec.encode 7) = some 7 ∧
    ∃ t cid, demoStore.put 7 ⟨"tree-v1", "sha-256"⟩ = Except.ok (t, cid) ∧
      t.get cid = Except.ok 7 :=
  ⟨rfl, rfl, rfl,
    c7_roundtrip demoStore 7 "tree-v1" "sha-256" natCodec idHash rfl rfl rfl⟩

/-- C8: the ready listener assigns the handle before the exported promise
resolves, so for a caller holding the resolved instance the handle is set
and no operation can take the not-connected branch. -/
theorem c8_ready_unreachable (node : IPFSNode V C E) :
    readyHandler node = some node ∧
    start (readyHandler node) ≠ Except.error WrapError.notConnected ∧
    stop (readyHandler node) ≠ Except.error WrapError.notConnected ∧
    isOnline (readyHandler node) ≠ Except.error WrapError.notConnected ∧
    (∀ v o, putObject (readyHandler node) v o ≠
      Except.error WrapError.notConnected) ∧
    (∀ args, putObjectSync (readyHandler node) args ≠
      SyncOutcome.thrown WrapError.notConnected) ∧
    onError (readyHandler node) ≠ Except.error WrapError.notConnected ∧
    onInit (readyHandler node) ≠ Except.error WrapError.notConnected ∧
    onStart (readyHandler node) ≠ Except.error WrapError.notConnected ∧
    onStop (readyHandler node) ≠ Except.error WrapError.notConnected := by
  refine ⟨rfl, ?_, ?_, ?_, ?_, ?_, ?_, ?_, ?_, ?_⟩
  · intro h; exact Except.noConfusion h
  · intro h; exact Except.noConfusion h
  · intro h; exact Except.noConfusion h
  · intro v o h
    have hp : putObject (readyHandler node) v o =
        (node.dagPut v (o.getD DEFAULT_DAG_CONFIG)).mapError
          WrapError.nodeError := rfl
    rw [hp] at h
    cases hd : node.dagPut v (o.getD DEFAULT_DAG_CONFIG) with
    | ok c => rw [hd] at h; simp [Except.mapError] at h
    | error e => rw [hd] at h; simp [Except.mapError] at h
  · intro args h
    rw [show readyHandler node = some node from rfl] at h
    rcases putObjectSync_some_outcome node args with hc | ⟨o, c, cb, r₁, r₂, hc⟩
    · rw [hc] at h
      injection h with h2
      exact WrapError.noConfusion h2
    · rw [hc] at h
      exact SyncOutcome.noConfusion h
  · intro h; exact Except.noConfusion h
  · intro h; exact Except.noConfusion h
  · intro h; exact Except.noConfusion h
  · intro h; exact Except.noConfusion h

/-- C10: when the handle is set, start and stop return undefined for every
possible wrapped node, whatever value or failure the wrapped start and
stop produce: the delegated outcome is discarded and the caller observes
neither a result nor a rejection. -/
theorem c10_start_stop_discard (node : IPFSNode V C E) :
    start (some node) = Except.ok () ∧ stop (some node) = Except.ok () := by
  exact ⟨rfl, rfl⟩

end IpfsInstance
